import Mathlib

/-!
Verification development for the SmartLocker controller.

The definitions below are shallow embeddings of the C++ handlers of the
repository: each handler becomes a pure Lean function from its inputs
(current shared state, keypad key, raw sensor values, the current value of
millis) to its outputs (updated state, transaction log records, lock
actuator commands, Bluetooth frames).  Arduino `String` buffers (keypad
input, Bluetooth lines) are modelled as `List Char`.  `millis()` and all
stored timestamps are `Nat`; `millis() - t` becomes truncated subtraction,
faithful for the monotone clocks the sketches rely on.  Transaction log
records (`type + "," + studentID + "," + String(millis())`) are modelled
as a structure holding the three components.  LCD text and LED blinking
are not modelled, except that the red-LED alarm engaged by the
forced-entry check is recorded as an `alert` flag.

The repository contains several drafts of the controller.  Namespaces keep
them apart:
 * `P6`  — the state-machine draft in `unnamed/part_006` (four concurrent
   machines, `LockerState`).
 * `P7a` — the first draft in `unnamed/part_007` (`SmartLocker_TTGO.ino`,
   `State`, with `checkTimeouts`).
 * `P7b` — the second draft in `unnamed/part_007` (client mode, with
   `maintainConnection`).
 * `P8`  — the second draft in `unnamed/part_008` (with
   `AWAITING_RETURN_ID`).
 * `BT5` — `unnamed/part_005` (`LockerBluetooth`, SPP server).
 * `BTT` — `SmartLocker_TTGO/bt_comm.cpp` (both halves).
-/

namespace SmartLocker

/-! ### Timing and validation configuration (from `unnamed/part_002`).
The `SmartLocker_TTGO/config.h` variant differs only in the numeric
values of some durations (e.g. a 10 s door-open timeout); no claim below
depends on the numeric values. -/

def SENSOR_DEBOUNCE_MS : Nat := 200

def INPUT_TIMEOUT_MS : Nat := 15000

def AUTH_TIMEOUT_MS : Nat := 10000

def DOOR_OPEN_TIMEOUT_MS : Nat := 30000

def MIN_STUDENT_ID_LENGTH : Nat := 8

def MAX_STUDENT_ID_LENGTH : Nat := 9

def IR_BOX_THRESHOLD : Nat := 2800

def IR_DOOR_THRESHOLD : Nat := 1300

/-! ### Arduino String helpers, modelled over `List Char` -/

/-- Arduino `String` contents are modelled as lists of characters. -/
abbrev Msg := List Char

/-- ASCII whitespace test used by Arduino `String::trim`. -/
def isSpaceB (c : Char) : Bool :=
  c = ' ' || c = '\t' || c = '\n' || c = '\r' || c = '\x0b' || c = '\x0c'

/-- Model of Arduino `String::trim`: strip leading and trailing whitespace. -/
def trimChars (cs : Msg) : Msg :=
  ((cs.dropWhile isSpaceB).reverse.dropWhile isSpaceB).reverse

/-- Model of Arduino `String::toUpperCase`: ASCII uppercase each character. -/
def upperChars (cs : Msg) : Msg :=
  cs.map Char.toUpper

/-! ### Shared data model -/

/-- Main locker states of `part_006` (`enum class LockerState`). -/
inductive LockerState
  | IDLE_AVAILABLE
  | IDLE_OCCUPIED
  | AWAITING_ID
  | AUTHENTICATING
  | BORROW_AUTHORIZED
  | BORROW_IN_PROGRESS
  | BORROW_COMPLETING
  | RETURN_IN_PROGRESS
  | RETURN_COMPLETING
  | ERROR_STATE
  | MAINTENANCE
  deriving DecidableEq, Repr

/-- Physical security states of `part_006` (`enum class SecurityState`). -/
inductive SecurityState
  | DOOR_CLOSED_BOX_PRESENT
  | DOOR_CLOSED_BOX_ABSENT
  | DOOR_OPEN_BOX_PRESENT
  | DOOR_OPEN_BOX_ABSENT
  | SENSOR_ERROR
  deriving DecidableEq, Repr

/-- Communication states of `part_006` (`enum class CommState`). -/
inductive CommState
  | IDLE
  | CONNECTING
  | SENDING_AUTH
  | WAITING_RESPONSE
  | PROCESSING_RESPONSE
  | OFFLINE_MODE
  | ERROR
  deriving DecidableEq, Repr

/-- Lock actuator commands (`doorServo.lock()` / `doorServo.unlock()`). -/
inductive LockCmd
  | lock
  | unlock
  deriving DecidableEq, Repr

/-- A transaction log record as assembled by `logTransaction`
(`type + "," + studentID + "," + String(millis())`), kept structured. -/
structure LogRecord where
  kind : String
  subjectId : Msg
  time : Nat
  deriving DecidableEq, Repr

/-! ### Bluetooth link, `unnamed/part_005` (`LockerBluetooth`, SPP server) -/

namespace BT5

/-- Connection state seen by `part_005`: `_clientConnected` is set by the
SPP callback, `_bt.connected()` is the stack's own view. -/
structure Link where
  clientConnected : Bool
  btConnected : Bool
  deriving DecidableEq, Repr

/-- Embedding of `LockerBluetooth::isConnected` (part_005 lines 54-56):
`_clientConnected && _bt.connected()`. -/
def isConnected (l : Link) : Bool :=
  l.clientConnected && l.btConnected

/-- Embedding of `LockerBluetooth::sendMessage` (part_005 lines 58-72).
Returns the success flag, the frames written to the link (the message
followed by a newline when connected, nothing otherwise) and the link
state after the call (never modified by this function). -/
def sendMessage (l : Link) (msg : Msg) : Bool × List Msg × Link :=
  if isConnected l then (true, [msg ++ ['\n']], l) else (false, [], l)

/-- Embedding of `LockerBluetooth::sendBorrowRequest` (part_005 lines 74-77). -/
def sendBorrowRequest (l : Link) (studentId : Msg) : Bool × List Msg × Link :=
  sendMessage l ("BORROW,".data ++ studentId)

/-- Embedding of `LockerBluetooth::sendReturnNotification`
(part_005 lines 79-82). -/
def sendReturnNotification (l : Link) (studentId : Msg) : Bool × List Msg × Link :=
  sendMessage l ("RETURN,".data ++ studentId)

/-- Embedding of the classification done by `LockerBluetooth::readResponse`
(part_005 lines 84-115) on a complete received line: trim, require a
non-empty result, uppercase, collapse the approval synonyms to `OK` and
the rejection synonyms to `DENIED`, and otherwise return the uppercased
message itself.  An empty line yields the empty reply. -/
def readResponse (line : Msg) : Msg :=
  let msg := trimChars line
  if msg.length > 0 then
    let m := upperChars msg
    if m = "OK".data ∨ m = "GRANTED".data ∨ m = "SUCCESS".data then "OK".data
    else if m = "DENIED".data ∨ m = "NO".data ∨ m = "FAIL".data ∨ m = "ERROR".data then
      "DENIED".data
    else m
  else []

end BT5

/-! ### Bluetooth link, `SmartLocker_TTGO/bt_comm.cpp` (both halves) -/

namespace BTT

/-- Embedding of the server-mode `LockerBluetooth::sendCode`
(bt_comm.cpp lines 17-22): `if (!_bt.hasClient()) return false;` then the
code plus a newline is written. -/
def sendCode (hasClient : Bool) (code : Msg) : Bool × List Msg :=
  if hasClient then (true, [code ++ ['\n']]) else (false, [])

/-- Embedding of the classification done by the server-mode
`LockerBluetooth::readResponse` (bt_comm.cpp lines 25-49) on a complete
received line: trim, uppercase, and normalize only the exact words `OK`
and `DENIED`; every other line is returned uppercased.  The client-mode
draft (bt_comm.cpp lines 127-157) classifies identically. -/
def readResponse (line : Msg) : Msg :=
  let m := upperChars (trimChars line)
  if m = "OK".data then "OK".data
  else if m = "DENIED".data then "DENIED".data
  else m

end BTT

/-! ### Security monitor of `part_006` (`updateSecurityState`, lines 290-335) -/

/-- The sensor-debouncing state of `part_006`: the throttle timestamp
`lastSensorCheck`, the last accepted value and last-accepted-change
timestamp per channel, and the composite `currentSecurityState`. -/
structure SecMon where
  lastSensorCheck : Nat
  lastDoorState : Bool
  lastBoxState : Bool
  doorDebounceTime : Nat
  boxDebounceTime : Nat
  current : SecurityState
  deriving DecidableEq, Repr

/-- The fixed door-by-item truth table of `part_006` lines 318-328. -/
def composeSecurity (doorClosed boxPresent : Bool) : SecurityState :=
  if doorClosed ∧ boxPresent then .DOOR_CLOSED_BOX_PRESENT
  else if doorClosed ∧ ¬ boxPresent then .DOOR_CLOSED_BOX_ABSENT
  else if ¬ doorClosed ∧ boxPresent then .DOOR_OPEN_BOX_PRESENT
  else .DOOR_OPEN_BOX_ABSENT

/-- Final step of `updateSecurityState` (part_006 lines 318-334): the
composite is recomputed from this tick's raw readings and stored when it
differs from the previous composite. -/
def securityCompose (m3 : SecMon) (doorClosed boxPresent : Bool) : SecMon :=
  if composeSecurity doorClosed boxPresent ≠ m3.current then
    { m3 with current := composeSecurity doorClosed boxPresent }
  else m3

/-- Box channel of `updateSecurityState` (part_006 lines 309-316): a
changed box reading is accepted when more than `SENSOR_DEBOUNCE_MS` has
passed since the last accepted box change, and otherwise the C++ `return`
aborts before the composite is recomputed. -/
def securityBoxStep (m2 : SecMon) (now : Nat) (doorClosed boxPresent : Bool) : SecMon :=
  if boxPresent ≠ m2.lastBoxState then
    if now - m2.boxDebounceTime > SENSOR_DEBOUNCE_MS then
      securityCompose { m2 with lastBoxState := boxPresent, boxDebounceTime := now }
        doorClosed boxPresent
    else m2
  else securityCompose m2 doorClosed boxPresent

/-- Door channel of `updateSecurityState` (part_006 lines 300-307),
analogous to the box channel. -/
def securityDoorStep (m1 : SecMon) (now : Nat) (doorClosed boxPresent : Bool) : SecMon :=
  if doorClosed ≠ m1.lastDoorState then
    if now - m1.doorDebounceTime > SENSOR_DEBOUNCE_MS then
      securityBoxStep { m1 with lastDoorState := doorClosed, doorDebounceTime := now }
        now doorClosed boxPresent
    else m1
  else securityBoxStep m1 now doorClosed boxPresent

/-- Embedding of `updateSecurityState` of `part_006` (lines 290-335).
`doorClosed`/`boxPresent` are the raw threshold-compared readings of this
tick.  The whole call is skipped within `SENSOR_DEBOUNCE_MS` of the
previous processed call; otherwise the door and box channels run in
sequence, each able to abort the update by the C++ early `return`. -/
def updateSecurityState (m : SecMon) (now : Nat) (doorClosed boxPresent : Bool) : SecMon :=
  if now - m.lastSensorCheck < SENSOR_DEBOUNCE_MS then m
  else securityDoorStep { m with lastSensorCheck := now } now doorClosed boxPresent

/-! ### Main controller of `part_006` -/

namespace P6

/-- The global shared variables of `part_006` that the modelled handlers
read or write. -/
structure St where
  lockerState : LockerState
  commState : CommState
  stateEntryTime : Nat
  inputStartTime : Nat
  authStartTime : Nat
  inputBuffer : Msg
  currentStudentID : Msg
  lastBorrowerID : Msg
  isNetworkAvailable : Bool
  authorizationPending : Bool
  authorizationResult : Bool
  sec : SecMon
  sensorFailCount : Nat
  deriving DecidableEq, Repr

/-- Side effects of one handler call: the records handed to
`logTransaction` (always written to the serial log), the subset actually
relayed over Bluetooth, the lock-actuator commands, and whether the
red-LED alarm of the forced-entry check was engaged. -/
structure Eff where
  logs : List LogRecord
  btLogs : List LogRecord
  cmds : List LockCmd
  alert : Bool
  deriving DecidableEq, Repr

/-- A handler call with no modelled side effects. -/
def noEff : Eff := ⟨[], [], [], false⟩

/-- Embedding of `logTransaction` of `part_006` (lines 720-733): the
record is always serial-printed, and additionally sent over the link
exactly when `bluetooth.isConnected()`; nothing else happens — in
particular no record is stored anywhere for later delivery. -/
def logTransaction (connected : Bool) (type : String) (studentID : Msg) (now : Nat) :
    List LogRecord × List LogRecord :=
  ([⟨type, studentID, now⟩], if connected then [⟨type, studentID, now⟩] else [])

/-- Embedding of `transitionToState` of `part_006` (lines 702-710). -/
def transitionToState (s : St) (newState : LockerState) (now : Nat) : St :=
  { s with lockerState := newState, stateEntryTime := now }

/-- Embedding of `requestAuthorization` of `part_006` (lines 712-718). -/
def requestAuthorization (s : St) (now : Nat) : St :=
  { s with authorizationPending := true, authStartTime := now, commState := .CONNECTING }

/-- Embedding of `handleIdleOccupied` of `part_006` (lines 402-414): on
the confirm key the controller moves to `RETURN_IN_PROGRESS` and unlocks;
no link state or identifier entry is involved.  (The source assigns
`stateEntryTime = millis()` once more after the transition, with the same
value `transitionToState` already stored.) -/
def handleIdleOccupied (s : St) (key : Option Char) (now : Nat) : St × Eff :=
  if key = some '#' then
    (transitionToState s .RETURN_IN_PROGRESS now, ⟨[], [], [.unlock], false⟩)
  else (s, noEff)

/-- Embedding of `handleAwaitingID` of `part_006` (lines 416-447): input
timeout first, then digits are appended unconditionally, `#` validates
only `length >= 8` (the literal minimum of this draft), `*` removes the
last character. -/
def handleAwaitingID (s : St) (key : Option Char) (now : Nat) : St × Eff :=
  if now - s.inputStartTime > INPUT_TIMEOUT_MS then
    (transitionToState s .IDLE_AVAILABLE now, noEff)
  else
    match key with
    | none => (s, noEff)
    | some k =>
      if '0' ≤ k ∧ k ≤ '9' then
        ({ s with inputBuffer := s.inputBuffer ++ [k] }, noEff)
      else if k = '#' then
        if s.inputBuffer.length ≥ 8 then
          (requestAuthorization
            (transitionToState { s with currentStudentID := s.inputBuffer } .AUTHENTICATING now)
            now, noEff)
        else ({ s with inputBuffer := [] }, noEff)
      else if k = '*' then
        if s.inputBuffer.length > 0 then
          ({ s with inputBuffer := s.inputBuffer.dropLast }, noEff)
        else (s, noEff)
      else (s, noEff)

/-- Embedding of `handleAuthenticating` of `part_006` (lines 449-471).
Both `if` statements of the body run in sequence: the completed exchange
is applied first, then the authorization-timeout check (against the
unchanged `authStartTime`) may override the result.  No log record is
emitted on either path. -/
def handleAuthenticating (s : St) (now : Nat) : St × Eff :=
  let s1 :=
    if s.authorizationPending = false then
      if s.authorizationResult then transitionToState s .BORROW_AUTHORIZED now
      else transitionToState s .IDLE_AVAILABLE now
    else s
  let s2 :=
    if now - s1.authStartTime > AUTH_TIMEOUT_MS then transitionToState s1 .IDLE_AVAILABLE now
    else s1
  (s2, noEff)

/-- Embedding of `handleBorrowInProgress` of `part_006` (lines 482-496).
The box-removed transition runs first; the door-open-timeout check then
re-locks and returns to `IDLE_AVAILABLE` without emitting any record. -/
def handleBorrowInProgress (s : St) (now : Nat) : St × Eff :=
  let s1 :=
    if s.sec.current = SecurityState.DOOR_OPEN_BOX_ABSENT then
      transitionToState s .BORROW_COMPLETING now
    else s
  if now - s1.stateEntryTime > DOOR_OPEN_TIMEOUT_MS then
    (transitionToState s1 .IDLE_AVAILABLE now, ⟨[], [], [.lock], false⟩)
  else (s1, noEff)

/-- Embedding of `handleErrorState` of `part_006` (lines 564-578): only
the admin key `D` leaves the error state, into `MAINTENANCE`. -/
def handleErrorState (s : St) (key : Option Char) (now : Nat) : St :=
  if key = some 'D' then transitionToState s .MAINTENANCE now else s

/-- The sensor-failure half of `handleEmergencyConditions` (part_006
lines 756-768): a raw reading below 100 on either channel increments the
consecutive-failure counter and forces `ERROR_STATE` once the count
exceeds 10, while a tick with both channels at or above 100 resets it. -/
def sensorFailStep (s : St) (now rawDoor rawBox : Nat) : St :=
  if rawDoor < 100 ∨ rawBox < 100 then
    if s.sensorFailCount + 1 > 10 then
      transitionToState { s with sensorFailCount := s.sensorFailCount + 1 } .ERROR_STATE now
    else { s with sensorFailCount := s.sensorFailCount + 1 }
  else { s with sensorFailCount := 0 }

/-- The forced-entry half of `handleEmergencyConditions` (part_006 lines
770-793), run after the sensor-failure counter: if the locker state is
idle and the composite security state reports the door open, the alarm is
engaged and a `SECURITY_BREACH` record is logged; recovery — re-lock,
refresh of the security monitor and re-derivation of the idle state from
raw box presence — happens only when the raw door reading already
compares closed inside that same branch. -/
def forcedEntryCheck (s : St) (now rawDoor rawBox : Nat) (connected : Bool) : St × Eff :=
  if (s.lockerState = .IDLE_AVAILABLE ∨ s.lockerState = .IDLE_OCCUPIED) ∧
      (s.sec.current = .DOOR_OPEN_BOX_PRESENT ∨
       s.sec.current = .DOOR_OPEN_BOX_ABSENT) then
    let log := logTransaction connected "SECURITY_BREACH" "UNKNOWN".data now
    if IR_DOOR_THRESHOLD ≤ rawDoor then
      let sec2 := updateSecurityState s.sec now (IR_DOOR_THRESHOLD ≤ rawDoor)
        (IR_BOX_THRESHOLD ≤ rawBox)
      let recovered :=
        if IR_BOX_THRESHOLD ≤ rawBox then
          transitionToState { s with sec := sec2 } .IDLE_AVAILABLE now
        else transitionToState { s with sec := sec2 } .IDLE_OCCUPIED now
      (recovered, ⟨log.1, log.2, [.lock], true⟩)
    else (s, ⟨log.1, log.2, [], true⟩)
  else (s, noEff)

/-- Embedding of `handleEmergencyConditions` of `part_006`
(lines 755-794): the sensor-failure counter runs first, then the
forced-entry check examines the (possibly just updated) locker state. -/
def handleEmergencyConditions (s : St) (now : Nat) (rawDoor rawBox : Nat)
    (connected : Bool) : St × Eff :=
  forcedEntryCheck (sensorFailStep s now rawDoor rawBox) now rawDoor rawBox connected

/-- Iterated ticks of `handleEmergencyConditions` with fixed raw readings,
used to trace the consecutive-failure counter. -/
def emgIter (s : St) (now rawDoor rawBox : Nat) (connected : Bool) : Nat → St
  | 0 => s
  | n + 1 =>
    (handleEmergencyConditions (emgIter s now rawDoor rawBox connected n)
      now rawDoor rawBox connected).1

/-- A quiescent security-monitor state: door closed, box present. -/
def secBase : SecMon := ⟨0, true, true, 0, 0, .DOOR_CLOSED_BOX_PRESENT⟩

/-- A quiescent controller state used as the base of concrete runs. -/
def base : St :=
  ⟨.IDLE_AVAILABLE, .IDLE, 0, 0, 0, [], [], [], true, false, false, secBase, 0⟩

end P6

/-! ### First draft of `unnamed/part_007` (`SmartLocker_TTGO.ino`) -/

namespace P7a

/-- States of the first `part_007` draft (`enum class State`). -/
inductive State
  | INIT
  | IDLE_AVAILABLE
  | IDLE_OCCUPIED
  | AWAITING_ID
  | AUTHENTICATING
  | BORROW_AUTHORIZED
  | BORROW_IN_PROGRESS
  | BORROW_COMPLETING
  | RETURN_IN_PROGRESS
  | RETURN_COMPLETING
  | ERROR
  deriving DecidableEq, Repr

/-- The global variables of the first `part_007` draft that the modelled
handlers read or write. -/
structure St where
  state : State
  stateEntryTime : Nat
  inputBuffer : Msg
  currentStudentID : Msg
  lastBorrowerID : Msg
  boxPresent : Bool
  doorClosed : Bool
  authRequestSent : Bool
  deriving DecidableEq, Repr

/-- Embedding of `changeState` of `part_007` (lines 493-505): the entry
timestamp is refreshed only on an actual change. -/
def changeState (s : St) (newState : State) (now : Nat) : St :=
  if s.state ≠ newState then { s with state := newState, stateEntryTime := now } else s

/-- Embedding of `handleAwaitingID` of `part_007` (lines 219-270): digits
append only below `MAX_STUDENT_ID_LENGTH`, `#` validates the length
against `MIN_STUDENT_ID_LENGTH`/`MAX_STUDENT_ID_LENGTH` (rejection clears
the buffer and stays), `*` removes the last character, `D` cancels. -/
def handleAwaitingID (s : St) (key : Option Char) (now : Nat) : St :=
  match key with
  | none => s
  | some k =>
    if '0' ≤ k ∧ k ≤ '9' then
      if s.inputBuffer.length < MAX_STUDENT_ID_LENGTH then
        { s with inputBuffer := s.inputBuffer ++ [k] }
      else s
    else if k = '#' then
      if MIN_STUDENT_ID_LENGTH ≤ s.inputBuffer.length ∧
          s.inputBuffer.length ≤ MAX_STUDENT_ID_LENGTH then
        changeState
          { s with currentStudentID := s.inputBuffer, authRequestSent := false }
          .AUTHENTICATING now
      else { s with inputBuffer := [] }
    else if k = '*' then
      if s.inputBuffer.length > 0 then { s with inputBuffer := s.inputBuffer.dropLast }
      else s
    else if k = 'D' then
      changeState { s with inputBuffer := [] } .IDLE_AVAILABLE now
    else s

/-- Embedding of `handleAuthenticating` of `part_007` (lines 272-339).
On the first call the borrow request frame is sent (a disconnected link
aborts to `IDLE_AVAILABLE`); then the classified response is examined:
`OK` moves to `BORROW_AUTHORIZED`, `DENIED` to `IDLE_AVAILABLE`, any other
non-empty reply is only printed and changes nothing.  No log record is
emitted. -/
def handleAuthenticating (s : St) (connected : Bool) (response : Msg) (now : Nat) :
    St × List Msg :=
  if s.authRequestSent = false ∧ connected = false then
    (changeState s .IDLE_AVAILABLE now, [])
  else
    let frames :=
      if s.authRequestSent = false then ["BORROW,".data ++ s.currentStudentID ++ ['\n']]
      else []
    let s1 := { s with authRequestSent := true }
    if response = "OK".data then
      (changeState { s1 with authRequestSent := false } .BORROW_AUTHORIZED now, frames)
    else if response = "DENIED".data then
      (changeState { s1 with authRequestSent := false } .IDLE_AVAILABLE now, frames)
    else (s1, frames)

/-- Embedding of `checkTimeouts` of `part_007` (lines 562-630).  On a
borrow timeout the door is re-locked and the controller moves to
`IDLE_AVAILABLE` or `IDLE_OCCUPIED` according to box presence (recording
the borrower in the latter case); on a return timeout a present box
counts as a completed return.  No `TIMEOUT` record is ever emitted. -/
def checkTimeouts (s : St) (connected : Bool) (now : Nat) :
    St × List LockCmd × List Msg :=
  let elapsed := now - s.stateEntryTime
  match s.state with
  | .AWAITING_ID =>
    if elapsed > INPUT_TIMEOUT_MS then
      (changeState { s with inputBuffer := [] } .IDLE_AVAILABLE now, [], [])
    else (s, [], [])
  | .AUTHENTICATING =>
    if elapsed > AUTH_TIMEOUT_MS then
      (changeState { s with authRequestSent := false } .IDLE_AVAILABLE now, [], [])
    else (s, [], [])
  | .BORROW_IN_PROGRESS =>
    if elapsed > DOOR_OPEN_TIMEOUT_MS then
      if s.boxPresent then (changeState s .IDLE_AVAILABLE now, [.lock], [])
      else
        (changeState { s with lastBorrowerID := s.currentStudentID } .IDLE_OCCUPIED now,
          [.lock], [])
    else (s, [], [])
  | .BORROW_COMPLETING =>
    if elapsed > DOOR_OPEN_TIMEOUT_MS then
      if s.boxPresent then (changeState s .IDLE_AVAILABLE now, [.lock], [])
      else
        (changeState { s with lastBorrowerID := s.currentStudentID } .IDLE_OCCUPIED now,
          [.lock], [])
    else (s, [], [])
  | .RETURN_IN_PROGRESS =>
    if elapsed > DOOR_OPEN_TIMEOUT_MS then
      if s.boxPresent then
        (changeState { s with lastBorrowerID := [] } .IDLE_AVAILABLE now, [.lock],
          if connected ∧ s.lastBorrowerID.length > 0 then
            ["RETURN,".data ++ s.lastBorrowerID ++ ['\n']]
          else [])
      else (changeState s .IDLE_OCCUPIED now, [.lock], [])
    else (s, [], [])
  | .RETURN_COMPLETING =>
    if elapsed > DOOR_OPEN_TIMEOUT_MS then
      if s.boxPresent then
        (changeState { s with lastBorrowerID := [] } .IDLE_AVAILABLE now, [.lock],
          if connected ∧ s.lastBorrowerID.length > 0 then
            ["RETURN,".data ++ s.lastBorrowerID ++ ['\n']]
          else [])
      else (changeState s .IDLE_OCCUPIED now, [.lock], [])
    else (s, [], [])
  | _ => (s, [], [])

/-- A quiescent state of the first `part_007` draft. -/
def base : St := ⟨.IDLE_AVAILABLE, 0, [], [], [], true, true, false⟩

end P7a

/-! ### Second draft of `unnamed/part_007` (client mode) -/

namespace P7b

/-- The connection-management variables of the second `part_007` draft. -/
structure Conn where
  isNetworkAvailable : Bool
  lastStatusCheck : Nat
  lastConnectionAttempt : Nat
  commIdle : Bool
  deriving DecidableEq, Repr

/-- Embedding of `maintainConnection` of `part_007` (lines 803-835): the
availability flag is refreshed from the stack every 2000 ms, and a
disconnected idle link periodically retries `bluetooth.connect()`.
`BT_RECONNECT_INTERVAL_MS` is referenced by the sketch but defined in no
config draft of the repository, so the interval is a parameter here.
Nothing is ever transmitted by this function — the returned frame list is
always empty. -/
def maintainConnection (c : Conn) (now : Nat) (btConnected connectResult : Bool)
    (reconnectInterval : Nat) : Conn × List Msg :=
  let c1 :=
    if now - c.lastStatusCheck > 2000 then
      { c with lastStatusCheck := now, isNetworkAvailable := btConnected }
    else c
  if ¬ c1.isNetworkAvailable ∧ c1.commIdle ∧
      now - c1.lastConnectionAttempt > reconnectInterval then
    if connectResult then
      ({ c1 with isNetworkAvailable := true, lastConnectionAttempt := now }, [])
    else ({ c1 with lastConnectionAttempt := now }, [])
  else (c1, [])

end P7b

/-! ### Second draft of `unnamed/part_008` (returns gated by ID entry) -/

namespace P8

/-- States of the second `part_008` draft (`enum class State`), with the
dedicated return-identifier states. -/
inductive State
  | INIT
  | IDLE_AVAILABLE
  | IDLE_OCCUPIED
  | AWAITING_ID
  | AUTHENTICATING
  | BORROW_AUTHORIZED
  | BORROW_IN_PROGRESS
  | BORROW_COMPLETING
  | AWAITING_RETURN_ID
  | RETURN_AUTHORIZED
  | RETURN_IN_PROGRESS
  | RETURN_COMPLETING
  | ERROR
  deriving DecidableEq, Repr

/-- The global variables of the second `part_008` draft that the modelled
handler reads or writes. -/
structure St where
  state : State
  stateEntryTime : Nat
  inputBuffer : Msg
  currentStudentID : Msg
  boxPresent : Bool
  doorClosed : Bool
  deriving DecidableEq, Repr

/-- Embedding of `changeState` of `part_008` (lines 667-679). -/
def changeState (s : St) (newState : State) (now : Nat) : St :=
  if s.state ≠ newState then { s with state := newState, stateEntryTime := now } else s

/-- Embedding of `handleIdleOccupied` of `part_008` (lines 313-346): the
auto-correct for an externally re-appeared box runs first; the confirm key
then starts a return only when the Pi is connected, and routes to
`AWAITING_RETURN_ID` (identifier entry) rather than unlocking. -/
def handleIdleOccupied (s : St) (connected : Bool) (key : Option Char) (now : Nat) :
    St × List LockCmd :=
  if s.boxPresent ∧ s.doorClosed then (changeState s .IDLE_AVAILABLE now, [])
  else if key = some '#' then
    if connected then (changeState { s with inputBuffer := [] } .AWAITING_RETURN_ID now, [])
    else (s, [])
  else (s, [])

/-- A quiescent borrowed-out state of the second `part_008` draft. -/
def base : St := ⟨.IDLE_OCCUPIED, 0, [], [], false, true⟩

end P8

end SmartLocker

namespace SmartLocker

/-! ## Theorems settling the claims -/

/-! ### Helper lemmas -/

/-- Membership in `dropLast` implies membership in the list. -/
theorem mem_of_mem_dropLast {α : Type} {l : List α} {a : α} (h : a ∈ l.dropLast) :
    a ∈ l := by
  induction l with
  | nil => exact absurd h (by simp)
  | cons x xs ih =>
    cases xs with
    | nil => exact absurd h (by simp)
    | cons y ys =>
      rcases List.mem_cons.mp h with h1 | h2
      · exact h1 ▸ List.mem_cons_self _ _
      · exact List.mem_cons_of_mem _ (ih h2)

/-- The final composite-assignment step leaves every non-composite field
of the monitor unchanged. -/
theorem securityCompose_projections (m3 : SecMon) (d b : Bool) :
    (securityCompose m3 d b).lastSensorCheck = m3.lastSensorCheck ∧
    (securityCompose m3 d b).lastDoorState = m3.lastDoorState ∧
    (securityCompose m3 d b).lastBoxState = m3.lastBoxState ∧
    (securityCompose m3 d b).doorDebounceTime = m3.doorDebounceTime ∧
    (securityCompose m3 d b).boxDebounceTime = m3.boxDebounceTime := by
  unfold securityCompose
  split <;> exact ⟨rfl, rfl, rfl, rfl, rfl⟩

/-- The final composite-assignment step always ends with the composite of
this tick's raw readings. -/
theorem securityCompose_current (m3 : SecMon) (d b : Bool) :
    (securityCompose m3 d b).current = composeSecurity d b := by
  unfold securityCompose
  by_cases hc : composeSecurity d b ≠ m3.current
  · rw [if_pos hc]
  · rw [if_neg hc]
    exact (not_not.mp hc).symm

/-! ### Claim C6: response normalization -/

/-- C6 counterexample.  The claim as stated fails twice on the code: the
`SmartLocker_TTGO/bt_comm.cpp` drafts normalize only the exact words `OK`
and `DENIED`, so the approval synonym `granted` does not collapse to the
Granted classification there; and a reply outside both synonym sets is not
passed through unmodified even in `part_005` — it is trimmed and
uppercased (`Maybe` comes back as `MAYBE`). -/
theorem C6_counterexample :
    BTT.readResponse "granted".data = "GRANTED".data ∧
    "GRANTED".data ≠ "OK".data ∧
    BT5.readResponse "Maybe".data = "MAYBE".data ∧
    "MAYBE".data ≠ "Maybe".data := by
  refine ⟨by decide, by decide, by decide, by decide⟩

/-- C6 (amended).  In the `part_005` implementation classification is
case-insensitive: a line is classified `OK` exactly when its trimmed
uppercased form is `OK`, `GRANTED` or `SUCCESS`; a line whose trimmed
uppercased form is `DENIED`, `NO`, `FAIL` or `ERROR` is classified
`DENIED`; any other non-empty line is passed through trimmed and
uppercased (not unmodified).  The `SmartLocker_TTGO` drafts normalize only
the exact words `OK` and `DENIED` and pass everything else through
trimmed and uppercased, so there a line is classified `OK` exactly when
its trimmed uppercased form is literally `OK`. -/
theorem C6_response_normalization_amended (line : Msg) :
    (BT5.readResponse line = "OK".data ↔
      (upperChars (trimChars line) = "OK".data ∨
       upperChars (trimChars line) = "GRANTED".data ∨
       upperChars (trimChars line) = "SUCCESS".data)) ∧
    ((upperChars (trimChars line) = "DENIED".data ∨
      upperChars (trimChars line) = "NO".data ∨
      upperChars (trimChars line) = "FAIL".data ∨
      upperChars (trimChars line) = "ERROR".data) →
        BT5.readResponse line = "DENIED".data) ∧
    ((trimChars line).length > 0 →
      ¬ (upperChars (trimChars line) = "OK".data ∨
         upperChars (trimChars line) = "GRANTED".data ∨
         upperChars (trimChars line) = "SUCCESS".data) →
      ¬ (upperChars (trimChars line) = "DENIED".data ∨
         upperChars (trimChars line) = "NO".data ∨
         upperChars (trimChars line) = "FAIL".data ∨
         upperChars (trimChars line) = "ERROR".data) →
        BT5.readResponse line = upperChars (trimChars line)) ∧
    (BTT.readResponse line = "OK".data ↔ upperChars (trimChars line) = "OK".data) := by
  have hlen : (upperChars (trimChars line)).length = (trimChars line).length := by
    simp [upperChars]
  refine ⟨⟨?_, ?_⟩, ?_, ?_, ⟨?_, ?_⟩⟩
  · intro h
    unfold BT5.readResponse at h
    by_cases hl : (trimChars line).length > 0
    · simp only [hl, if_true] at h
      by_cases happ : upperChars (trimChars line) = "OK".data ∨
          upperChars (trimChars line) = "GRANTED".data ∨
          upperChars (trimChars line) = "SUCCESS".data
      · exact happ
      · simp only [happ, if_false] at h
        by_cases hden : upperChars (trimChars line) = "DENIED".data ∨
            upperChars (trimChars line) = "NO".data ∨
            upperChars (trimChars line) = "FAIL".data ∨
            upperChars (trimChars line) = "ERROR".data
        · simp only [hden, if_true] at h
          exact absurd h (by decide)
        · simp only [hden, if_false] at h
          exact absurd (Or.inl h) happ
    · simp only [hl, if_false] at h
      exact absurd h (by decide)
  · intro happ
    have hl : (trimChars line).length > 0 := by
      rw [← hlen]
      rcases happ with h | h | h <;> rw [h] <;> decide
    unfold BT5.readResponse
    simp only [hl, if_true, happ, if_true]
  · intro hden
    have hl : (trimChars line).length > 0 := by
      rw [← hlen]
      rcases hden with h | h | h | h <;> rw [h] <;> decide
    have happ : ¬ (upperChars (trimChars line) = "OK".data ∨
        upperChars (trimChars line) = "GRANTED".data ∨
        upperChars (trimChars line) = "SUCCESS".data) := by
      rcases hden with h | h | h | h <;> rw [h] <;> decide
    unfold BT5.readResponse
    simp only [hl, if_true, happ, if_false, hden, if_true]
  · intro hl happ hden
    unfold BT5.readResponse
    simp only [hl, if_true, happ, if_false, hden, if_false]
  · intro h
    unfold BTT.readResponse at h
    by_cases hok : upperChars (trimChars line) = "OK".data
    · exact hok
    · simp only [hok, if_false] at h
      by_cases hd : upperChars (trimChars line) = "DENIED".data
      · simp only [hd, if_true] at h
        exact absurd h (by decide)
      · simp only [hd, if_false] at h
        exact absurd h hok
  · intro hok
    unfold BTT.readResponse
    simp only [hok, if_true]

/-- Witness for `C6_response_normalization_amended` at the line
`" Granted "`: trimmed and uppercased it is `GRANTED`, so `part_005`
classifies it as `OK` while the TTGO draft does not. -/
theorem C6_witness :
    BT5.readResponse " Granted ".data = "OK".data ∧
    ¬ BTT.readResponse " Granted ".data = "OK".data := by
  have h := C6_response_normalization_amended " Granted ".data
  refine ⟨h.1.mpr (by decide), ?_⟩
  intro hk
  exact absurd (h.2.2.2.mp hk) (by decide)

/-! ### Claim C10: sends require a connected client -/

/-- C10 (confirmed).  When no client is connected, `sendMessage`,
`sendBorrowRequest` and `sendReturnNotification` of `part_005` write
nothing, return `false` and leave the link state unchanged, and the
server-mode `sendCode` of `bt_comm.cpp` writes nothing and returns
`false`; conversely a frame is written only when a client is connected. -/
theorem C10_send_requires_client (l : BT5.Link) (studentId msg : Msg)
    (h : BT5.isConnected l = false) :
    BT5.sendMessage l msg = (false, [], l) ∧
    BT5.sendBorrowRequest l studentId = (false, [], l) ∧
    BT5.sendReturnNotification l studentId = (false, [], l) ∧
    BTT.sendCode false msg = (false, []) ∧
    (∀ l' : BT5.Link, ∀ m : Msg,
      (BT5.sendMessage l' m).2.1 ≠ [] → BT5.isConnected l' = true) := by
  refine ⟨?_, ?_, ?_, rfl, ?_⟩
  · simp [BT5.sendMessage, h]
  · simp [BT5.sendBorrowRequest, BT5.sendMessage, h]
  · simp [BT5.sendReturnNotification, BT5.sendMessage, h]
  · intro l' m hne
    by_cases hc : BT5.isConnected l' = true
    · exact hc
    · exfalso
      apply hne
      simp [BT5.sendMessage, hc]

/-- Witness for `C10_send_requires_client` at a link whose SPP callback
has recorded a disconnect. -/
theorem C10_witness :
    BT5.sendMessage ⟨false, true⟩ "BORROW,12345678".data =
      (false, [], (⟨false, true⟩ : BT5.Link)) := by
  exact (C10_send_requires_client ⟨false, true⟩ "12345678".data "BORROW,12345678".data rfl).1

/-! ### Claim C8: sensor debouncing -/

/-- C8 counterexample.  Starting from the quiescent monitor, a call at
t = 800 with unchanged readings is processed (door closed, box present
accepted), and the very next processed call at t = 1000 observes the door
reading flipped to open for the first time — yet the change is accepted
and the composite mutated immediately, because the only guard compares
against the time of the channel's *last accepted change* (t = 0), not
against how long the new reading has persisted.  The claim's requirement
that a change be accepted only after persisting for the debounce interval
is therefore false. -/
theorem C8_counterexample :
    (updateSecurityState P6.secBase 800 true true).current =
      SecurityState.DOOR_CLOSED_BOX_PRESENT ∧
    (updateSecurityState (updateSecurityState P6.secBase 800 true true) 1000 false true).current =
      SecurityState.DOOR_OPEN_BOX_PRESENT := by
  refine ⟨by decide, by decide⟩

/-- C8 (amended).  The debounce of `part_006` is a per-channel rate limit
on accepted changes, not a persistence requirement: a changed raw reading
is accepted (and the composite recomputed) immediately when more than
`SENSOR_DEBOUNCE_MS` has passed since that channel's last accepted
change, and is otherwise ignored by an early return that mutates nothing
but the read-throttle timestamp — so a rejected flip indeed causes no
change to the accepted values or to the composite `SecurityState`.
Calls within `SENSOR_DEBOUNCE_MS` of the previous processed call are
skipped entirely. -/
theorem C8_debounce_amended (m : SecMon) (now : Nat) (doorClosed boxPresent : Bool) :
    (now - m.lastSensorCheck < SENSOR_DEBOUNCE_MS →
      updateSecurityState m now doorClosed boxPresent = m) ∧
    (¬ now - m.lastSensorCheck < SENSOR_DEBOUNCE_MS →
      doorClosed ≠ m.lastDoorState →
      now - m.doorDebounceTime ≤ SENSOR_DEBOUNCE_MS →
      updateSecurityState m now doorClosed boxPresent = { m with lastSensorCheck := now }) ∧
    (¬ now - m.lastSensorCheck < SENSOR_DEBOUNCE_MS →
      doorClosed ≠ m.lastDoorState →
      now - m.doorDebounceTime > SENSOR_DEBOUNCE_MS →
      boxPresent = m.lastBoxState →
      (updateSecurityState m now doorClosed boxPresent).lastDoorState = doorClosed ∧
      (updateSecurityState m now doorClosed boxPresent).doorDebounceTime = now ∧
      (updateSecurityState m now doorClosed boxPresent).current =
        composeSecurity doorClosed boxPresent) := by
  refine ⟨?_, ?_, ?_⟩
  · intro h
    simp [updateSecurityState, h]
  · intro h1 h2 h3
    have h4 : ¬ now - m.doorDebounceTime > SENSOR_DEBOUNCE_MS := by omega
    unfold updateSecurityState securityDoorStep
    rw [if_neg h1, if_pos (by simpa using h2), if_neg (by simpa using h4)]
  · intro h1 h2 h3 h4
    unfold updateSecurityState securityDoorStep securityBoxStep
    rw [if_neg h1, if_pos (by simpa using h2), if_pos (by simpa using h3),
      if_neg (by simp [h4])]
    refine ⟨?_, ?_, ?_⟩
    · exact (securityCompose_projections _ _ _).2.1
    · exact (securityCompose_projections _ _ _).2.2.2.1
    · exact securityCompose_current _ _ _

/-- Witness for `C8_debounce_amended`: at t = 1000 with the quiescent
monitor, a door reading flipped to open is accepted immediately. -/
theorem C8_witness :
    (updateSecurityState P6.secBase 1000 false true).lastDoorState = false ∧
    (updateSecurityState P6.secBase 1000 false true).current =
      composeSecurity false true := by
  have h := (C8_debounce_amended P6.secBase 1000 false true).2.2
    (by decide) (by decide) (by decide) rfl
  exact ⟨h.1, h.2.2⟩

/-! ### Claim C9: offline log queueing -/

/-- C9 (code bug).  The repository's own architecture notes promise a
"transaction logging queue for network recovery" flushed after
reconnection, but the code has no queue: `logTransaction` of `part_006`
relays a record over the link only when connected and otherwise merely
serial-prints it, retaining nothing, and `maintainConnection` of
`part_007` reconnects without ever transmitting anything.  The final two
conjuncts evaluate both functions at the failing input: a `BORROW` record
logged while disconnected, followed by a successful reconnection that
flushes nothing. -/
theorem C9_offline_logs_dropped :
    (∀ (kind : String) (id : Msg) (now : Nat),
      P6.logTransaction false kind id now = ([⟨kind, id, now⟩], [])) ∧
    (∀ (c : P7b.Conn) (now : Nat) (btConnected connectResult : Bool) (interval : Nat),
      (P7b.maintainConnection c now btConnected connectResult interval).2 = []) ∧
    P6.logTransaction false "BORROW" "12345678".data 1000 =
      ([⟨"BORROW", "12345678".data, 1000⟩], []) ∧
    P7b.maintainConnection ⟨false, 0, 0, true⟩ 10000 false true 5000 =
      (⟨true, 10000, 10000, true⟩, []) := by
  refine ⟨fun kind id now => rfl, ?_, by decide, by decide⟩
  intro c now btConnected connectResult interval
  simp [P7b.maintainConnection, apply_ite Prod.snd]

/-- The `part_007` `changeState` always ends in the requested state. -/
theorem P7a_changeState_state (s : P7a.St) (ns : P7a.State) (now : Nat) :
    (P7a.changeState s ns now).state = ns := by
  unfold P7a.changeState
  split
  · rfl
  · rename_i h
    exact not_not.mp (by simpa using h)

/-- The `part_007` `changeState` never touches the input buffer. -/
theorem P7a_changeState_inputBuffer (s : P7a.St) (ns : P7a.State) (now : Nat) :
    (P7a.changeState s ns now).inputBuffer = s.inputBuffer := by
  unfold P7a.changeState
  split <;> rfl

/-- The `part_008` `changeState` always ends in the requested state. -/
theorem P8_changeState_state (s : P8.St) (ns : P8.State) (now : Nat) :
    (P8.changeState s ns now).state = ns := by
  unfold P8.changeState
  split
  · rfl
  · rename_i h
    exact not_not.mp (by simpa using h)

/-! ### Claim C1: authorization round trip -/

/-- C1 counterexample.  With the exchange completed as Denied
(`authorizationPending` cleared, `authorizationResult` false) the
`part_006` controller does transition to `IDLE_AVAILABLE`, but its
handler emits no log record at all — no `DENIED` transaction record
exists anywhere in the code, refuting the claim's "a Denied transaction
log record is emitted".  Moreover a Granted completion observed after the
authorization timeout has elapsed ends in `IDLE_AVAILABLE`, not
`BORROW_AUTHORIZED`, because the timeout check runs after the transition
in the same handler call. -/
theorem C1_counterexample :
    (P6.handleAuthenticating
      { P6.base with lockerState := .AUTHENTICATING } 0).1.lockerState =
        LockerState.IDLE_AVAILABLE ∧
    (P6.handleAuthenticating
      { P6.base with lockerState := .AUTHENTICATING } 0).2.logs = [] ∧
    (P6.handleAuthenticating
      { P6.base with lockerState := .AUTHENTICATING, authorizationResult := true }
      10001).1.lockerState = LockerState.IDLE_AVAILABLE := by
  refine ⟨by decide, by decide, by decide⟩

/-- C1 (amended).  In `part_006`, when the exchange completes with
Granted and the authorization timeout has not yet elapsed, the controller
transitions to `BORROW_AUTHORIZED` and nothing else changes; when it
completes with Denied the controller transitions to `IDLE_AVAILABLE`; in
neither case is any log record emitted (the code logs no denial record).
The first `part_007` draft behaves the same on the classified `OK` and
`DENIED` responses. -/
theorem C1_auth_roundtrip_amended (s : P6.St) (t : P7a.St) (now : Nat) (connected : Bool) :
    (s.authorizationPending = false → s.authorizationResult = true →
      now - s.authStartTime ≤ AUTH_TIMEOUT_MS →
      P6.handleAuthenticating s now =
        (P6.transitionToState s .BORROW_AUTHORIZED now, P6.noEff)) ∧
    (s.authorizationPending = false → s.authorizationResult = false →
      (P6.handleAuthenticating s now).1.lockerState = LockerState.IDLE_AVAILABLE ∧
      (P6.handleAuthenticating s now).2 = P6.noEff) ∧
    (t.state = P7a.State.AUTHENTICATING → t.authRequestSent = true →
      (P7a.handleAuthenticating t connected "OK".data now).1.state =
        P7a.State.BORROW_AUTHORIZED ∧
      (P7a.handleAuthenticating t connected "OK".data now).2 = [] ∧
      (P7a.handleAuthenticating t connected "DENIED".data now).1.state =
        P7a.State.IDLE_AVAILABLE ∧
      (P7a.handleAuthenticating t connected "DENIED".data now).2 = []) := by
  refine ⟨?_, ?_, ?_⟩
  · intro h1 h2 h3
    have h4 : ¬ now - s.authStartTime > AUTH_TIMEOUT_MS := by omega
    simp [P6.handleAuthenticating, h1, h2, P6.transitionToState, h4]
  · intro h1 h2
    unfold P6.handleAuthenticating
    rw [if_pos h1, if_neg (show ¬ s.authorizationResult = true by simp [h2])]
    refine ⟨?_, rfl⟩
    simp only [P6.transitionToState]
    split <;> rfl
  · intro ht hsent
    have hdo : ¬ ("DENIED".data : Msg) = "OK".data := by decide
    unfold P7a.handleAuthenticating P7a.changeState
    simp [hsent, ht, hdo]

/-- Witness for `C1_auth_roundtrip_amended`: a Granted completion at time
0 moves the `part_006` controller to `BORROW_AUTHORIZED`. -/
theorem C1_witness :
    P6.handleAuthenticating
      { P6.base with lockerState := .AUTHENTICATING, authorizationResult := true } 0 =
      (P6.transitionToState
        { P6.base with lockerState := .AUTHENTICATING, authorizationResult := true }
        .BORROW_AUTHORIZED 0, P6.noEff) := by
  exact (C1_auth_roundtrip_amended _ P7a.base 0 true).1 rfl rfl (by decide)

/-! ### Claim C2: returns bypass authorization -/

/-- C2 counterexample.  In the second `part_008` draft the confirm key
from `IDLE_OCCUPIED` consults the Bluetooth link: with the Pi connected it
routes to `AWAITING_RETURN_ID` (identifier entry) without unlocking, and
with the Pi disconnected it does nothing at all — refuting both "never
consults AuthLink" and "always proceeds to ReturnInProgress with the
actuator unlocked". -/
theorem C2_counterexample :
    (P8.handleIdleOccupied P8.base true (some '#') 5).1.state =
      P8.State.AWAITING_RETURN_ID ∧
    (P8.handleIdleOccupied P8.base true (some '#') 5).2 = [] ∧
    P8.handleIdleOccupied P8.base false (some '#') 5 = (P8.base, []) := by
  refine ⟨by decide, by decide, by decide⟩

/-- C2 (amended).  In the `part_006` controller the claim holds: from any
state, the confirm key in `handleIdleOccupied` moves to
`RETURN_IN_PROGRESS` and unlocks, and the result depends on no link field
and no identifier (the full equality below fixes every output).  In the
second `part_008` draft the return path instead requires a connected link
and identifier entry: connected, the confirm key routes to
`AWAITING_RETURN_ID` without unlocking; disconnected, nothing happens. -/
theorem C2_return_bypass_amended (s : P6.St) (t : P8.St) (now : Nat) :
    P6.handleIdleOccupied s (some '#') now =
      (P6.transitionToState s .RETURN_IN_PROGRESS now, ⟨[], [], [.unlock], false⟩) ∧
    (t.boxPresent = false → t.doorClosed = true →
      (P8.handleIdleOccupied t true (some '#') now).1.state =
        P8.State.AWAITING_RETURN_ID ∧
      (P8.handleIdleOccupied t true (some '#') now).2 = [] ∧
      P8.handleIdleOccupied t false (some '#') now = (t, [])) := by
  refine ⟨?_, ?_⟩
  · simp [P6.handleIdleOccupied]
  · intro hb hd
    refine ⟨?_, ?_, ?_⟩
    · unfold P8.handleIdleOccupied
      rw [if_neg (show ¬ (t.boxPresent = true ∧ t.doorClosed = true) by simp [hb]),
        if_pos rfl, if_pos rfl]
      exact P8_changeState_state _ _ _
    · unfold P8.handleIdleOccupied
      rw [if_neg (show ¬ (t.boxPresent = true ∧ t.doorClosed = true) by simp [hb]),
        if_pos rfl, if_pos rfl]
    · unfold P8.handleIdleOccupied
      rw [if_neg (show ¬ (t.boxPresent = true ∧ t.doorClosed = true) by simp [hb]),
        if_pos rfl, if_neg (show ¬ (false : Bool) = true by simp)]

/-- Witness for `C2_return_bypass_amended` at the quiescent states. -/
theorem C2_witness :
    P6.handleIdleOccupied P6.base (some '#') 7 =
      (P6.transitionToState P6.base .RETURN_IN_PROGRESS 7, ⟨[], [], [.unlock], false⟩) ∧
    P8.handleIdleOccupied P8.base false (some '#') 7 = (P8.base, []) := by
  have h := C2_return_bypass_amended P6.base P8.base 7
  exact ⟨h.1, (h.2 rfl rfl).2.2⟩

/-- The forced-entry check never changes the consecutive-failure counter. -/
theorem forcedEntryCheck_sensorFailCount (x : P6.St) (now rawDoor rawBox : Nat)
    (connected : Bool) :
    (P6.forcedEntryCheck x now rawDoor rawBox connected).1.sensorFailCount =
      x.sensorFailCount := by
  unfold P6.forcedEntryCheck
  split
  · split
    · simp only [P6.transitionToState]
      split <;> rfl
    · rfl
  · rfl

/-- The forced-entry check fires only from the idle states, so it keeps
`ERROR_STATE` in place. -/
theorem forcedEntryCheck_error (x : P6.St) (now rawDoor rawBox : Nat) (connected : Bool)
    (h : x.lockerState = LockerState.ERROR_STATE) :
    (P6.forcedEntryCheck x now rawDoor rawBox connected).1.lockerState =
      LockerState.ERROR_STATE := by
  unfold P6.forcedEntryCheck
  rw [if_neg (by simp [h])]
  exact h

/-! ### Claim C3: forced-entry detection and recovery -/

/-- C3 counterexample.  With the controller idle-available, the box gone
and the composite SecurityState already reporting the door closed again
(`DOOR_CLOSED_BOX_ABSENT`), the claim requires the controller to re-lock
and re-derive the idle state (here `IDLE_OCCUPIED`); the code instead
does nothing at all on such a tick — the recovery code sits inside the
branch that requires the composite still to report the door *open*, so
once SecurityState reports the door closed the handler issues no lock
command and leaves the stale idle state in place. -/
theorem C3_counterexample :
    P6.handleEmergencyConditions
      { P6.base with sec := { P6.secBase with current := .DOOR_CLOSED_BOX_ABSENT } }
      1000 2000 200 true =
      ({ P6.base with sec := { P6.secBase with current := .DOOR_CLOSED_BOX_ABSENT } },
        P6.noEff) := by
  decide

/-- C3 (amended).  On every tick where the locker state is idle and the
composite SecurityState reports the door open (raw readings plausible),
a `SECURITY_BREACH` record is emitted and the alert is engaged.  The
re-lock and re-derivation of the idle state from raw box presence happen
on the ticks of that same kind on which the *raw* door reading already
compares closed (the debounced composite still reporting open); on a tick
whose raw door reading is still open, no lock command is issued and the
state does not change. -/
theorem C3_forced_entry_amended (s : P6.St) (now rawDoor rawBox : Nat) (connected : Bool)
    (hidle : s.lockerState = .IDLE_AVAILABLE ∨ s.lockerState = .IDLE_OCCUPIED)
    (hopen : s.sec.current = .DOOR_OPEN_BOX_PRESENT ∨
      s.sec.current = .DOOR_OPEN_BOX_ABSENT)
    (hd : 100 ≤ rawDoor) (hb : 100 ≤ rawBox) :
    ((P6.handleEmergencyConditions s now rawDoor rawBox connected).2.alert = true ∧
     (P6.handleEmergencyConditions s now rawDoor rawBox connected).2.logs =
       [⟨"SECURITY_BREACH", "UNKNOWN".data, now⟩]) ∧
    (IR_DOOR_THRESHOLD ≤ rawDoor →
      (P6.handleEmergencyConditions s now rawDoor rawBox connected).2.cmds = [.lock] ∧
      (P6.handleEmergencyConditions s now rawDoor rawBox connected).1.lockerState =
        (if IR_BOX_THRESHOLD ≤ rawBox then LockerState.IDLE_AVAILABLE
         else LockerState.IDLE_OCCUPIED)) ∧
    (rawDoor < IR_DOOR_THRESHOLD →
      (P6.handleEmergencyConditions s now rawDoor rawBox connected).1 =
        { s with sensorFailCount := 0 } ∧
      (P6.handleEmergencyConditions s now rawDoor rawBox connected).2.cmds = []) := by
  have hfail : ¬ (rawDoor < 100 ∨ rawBox < 100) := by omega
  have hstep : P6.sensorFailStep s now rawDoor rawBox = { s with sensorFailCount := 0 } := by
    unfold P6.sensorFailStep
    rw [if_neg hfail]
  have hcond :
      (({ s with sensorFailCount := 0 } : P6.St).lockerState = LockerState.IDLE_AVAILABLE ∨
        ({ s with sensorFailCount := 0 } : P6.St).lockerState = LockerState.IDLE_OCCUPIED) ∧
      (({ s with sensorFailCount := 0 } : P6.St).sec.current =
          SecurityState.DOOR_OPEN_BOX_PRESENT ∨
        ({ s with sensorFailCount := 0 } : P6.St).sec.current =
          SecurityState.DOOR_OPEN_BOX_ABSENT) := ⟨hidle, hopen⟩
  unfold P6.handleEmergencyConditions
  rw [hstep]
  unfold P6.forcedEntryCheck
  rw [if_pos hcond]
  refine ⟨?_, ?_, ?_⟩
  · by_cases hth : IR_DOOR_THRESHOLD ≤ rawDoor
    · simp [hth, P6.logTransaction]
    · simp [hth, P6.logTransaction]
  · intro hth
    by_cases hbx : IR_BOX_THRESHOLD ≤ rawBox
    · simp [hth, hbx, P6.logTransaction, P6.transitionToState]
    · simp [hth, hbx, P6.logTransaction, P6.transitionToState]
  · intro hth
    have hth2 : ¬ IR_DOOR_THRESHOLD ≤ rawDoor := by omega
    simp [hth2, P6.logTransaction]

/-- Witness for `C3_forced_entry_amended`: a breach tick whose raw door
reading already compares closed re-locks and re-derives
`IDLE_AVAILABLE` from the present box. -/
theorem C3_witness :
    (P6.handleEmergencyConditions
      { P6.base with sec := { P6.secBase with current := .DOOR_OPEN_BOX_ABSENT } }
      5 2000 3000 true).2.alert = true ∧
    (P6.handleEmergencyConditions
      { P6.base with sec := { P6.secBase with current := .DOOR_OPEN_BOX_ABSENT } }
      5 2000 3000 true).2.cmds = [.lock] ∧
    (P6.handleEmergencyConditions
      { P6.base with sec := { P6.secBase with current := .DOOR_OPEN_BOX_ABSENT } }
      5 2000 3000 true).1.lockerState = LockerState.IDLE_AVAILABLE := by
  have h := C3_forced_entry_amended
    { P6.base with sec := { P6.secBase with current := .DOOR_OPEN_BOX_ABSENT } }
    5 2000 3000 true (Or.inl rfl) (Or.inr rfl) (by decide) (by decide)
  have h2 := h.2.1 (by decide)
  refine ⟨h.1.1, h2.1, ?_⟩
  rw [h2.2]
  decide

/-! ### Claim C4: borrow door-open timeout -/

/-- C4 counterexample.  On the `part_006` borrow timeout the controller
re-locks and returns to `IDLE_AVAILABLE`, but it emits no record at all —
no `TIMEOUT` transaction record exists in the code, refuting "logs a
Timeout record" (the full equality below fixes the effect lists to a lone
lock command).  In the first `part_007` draft the same timeout does not
even return to `IDLE_AVAILABLE` when the box is already absent: it books
the borrow and moves to `IDLE_OCCUPIED`. -/
theorem C4_counterexample :
    P6.handleBorrowInProgress { P6.base with lockerState := .BORROW_IN_PROGRESS } 30001 =
      ({ P6.base with lockerState := .IDLE_AVAILABLE, stateEntryTime := 30001 },
        ⟨[], [], [.lock], false⟩) ∧
    (P7a.checkTimeouts
      { P7a.base with state := .BORROW_IN_PROGRESS, boxPresent := false }
      true 30001).1.state = P7a.State.IDLE_OCCUPIED := by
  refine ⟨by decide, by decide⟩

/-- C4 (amended).  In `part_006`, when the door-open timeout elapses in
`BORROW_IN_PROGRESS` before the box-removed condition is seen, the
controller re-locks and moves to `IDLE_AVAILABLE`, with no log record of
any kind.  In the first `part_007` draft the timeout re-locks and moves
to the idle state matching box presence (`IDLE_AVAILABLE` when present,
`IDLE_OCCUPIED` when absent), also transmitting nothing. -/
theorem C4_borrow_timeout_amended (s : P6.St) (t : P7a.St) (now : Nat) (connected : Bool)
    (hsec : s.sec.current ≠ SecurityState.DOOR_OPEN_BOX_ABSENT)
    (htime : now - s.stateEntryTime > DOOR_OPEN_TIMEOUT_MS) :
    P6.handleBorrowInProgress s now =
      (P6.transitionToState s .IDLE_AVAILABLE now, ⟨[], [], [.lock], false⟩) ∧
    (t.state = P7a.State.BORROW_IN_PROGRESS →
      now - t.stateEntryTime > DOOR_OPEN_TIMEOUT_MS →
      (P7a.checkTimeouts t connected now).2.1 = [.lock] ∧
      (P7a.checkTimeouts t connected now).2.2 = [] ∧
      (P7a.checkTimeouts t connected now).1.state =
        (if t.boxPresent then P7a.State.IDLE_AVAILABLE else P7a.State.IDLE_OCCUPIED)) := by
  refine ⟨?_, ?_⟩
  · unfold P6.handleBorrowInProgress
    rw [if_neg hsec, if_pos htime]
  · intro ht htt
    unfold P7a.checkTimeouts
    simp only [ht, htt, ite_true, if_true]
    cases hbp : t.boxPresent
    · simp [hbp, P7a_changeState_state]
    · simp [hbp, P7a_changeState_state]

/-- Witness for `C4_borrow_timeout_amended` with the box present. -/
theorem C4_witness :
    P6.handleBorrowInProgress { P6.base with lockerState := .BORROW_IN_PROGRESS } 40000 =
      (P6.transitionToState { P6.base with lockerState := .BORROW_IN_PROGRESS }
        .IDLE_AVAILABLE 40000, ⟨[], [], [.lock], false⟩) ∧
    (P7a.checkTimeouts { P7a.base with state := .BORROW_IN_PROGRESS } true 40000).1.state =
      P7a.State.IDLE_AVAILABLE := by
  have h := C4_borrow_timeout_amended { P6.base with lockerState := .BORROW_IN_PROGRESS }
    { P7a.base with state := .BORROW_IN_PROGRESS } 40000 true (by decide) (by decide)
  refine ⟨h.1, ?_⟩
  have h2 := h.2 rfl (by decide)
  rw [h2.2.2]
  decide

/-! ### Claim C5: input-buffer invariant and boundaries -/

/-- C5 counterexample.  The `part_006` `handleAwaitingID` has no maximum:
a digit pressed with the buffer already at the configured maximum (9) is
appended, producing a 10-character buffer, and the confirm key then
accepts that over-long identifier — refuting "a digit key pressed at
maximum length is ignored" and "one above maximum cannot be entered". -/
theorem C5_counterexample :
    (P6.handleAwaitingID
      { P6.base with lockerState := .AWAITING_ID, inputBuffer := "123456789".data }
      (some '0') 0).1.inputBuffer = "1234567890".data ∧
    MAX_STUDENT_ID_LENGTH < ("1234567890".data : Msg).length ∧
    (P6.handleAwaitingID
      { P6.base with lockerState := .AWAITING_ID, inputBuffer := "1234567890".data }
      (some '#') 0).1.lockerState = LockerState.AUTHENTICATING := by
  refine ⟨by decide, by decide, by decide⟩

/-- C5 (amended).  In the `part_007`/`part_008` handlers the claim holds
as stated: the buffer stays digits-only and never exceeds
`MAX_STUDENT_ID_LENGTH` (a digit at maximum length is ignored), a
length-7 identifier is rejected on confirm without a state change (the
buffer is cleared), and lengths exactly 8 (`MIN_STUDENT_ID_LENGTH`) and
exactly 9 (`MAX_STUDENT_ID_LENGTH`) are accepted into `AUTHENTICATING`.
The `part_006` draft enforces no maximum — digits append unboundedly and
any length of at least 8 is accepted (see the counterexample). -/
theorem C5_input_buffer_amended (s : P7a.St) (k : Char) (now : Nat)
    (hdig : ∀ c ∈ s.inputBuffer, '0' ≤ c ∧ c ≤ '9')
    (hlen : s.inputBuffer.length ≤ MAX_STUDENT_ID_LENGTH) :
    (∀ key : Option Char,
      (∀ c ∈ (P7a.handleAwaitingID s key now).inputBuffer, '0' ≤ c ∧ c ≤ '9') ∧
      (P7a.handleAwaitingID s key now).inputBuffer.length ≤ MAX_STUDENT_ID_LENGTH) ∧
    (s.inputBuffer.length = MAX_STUDENT_ID_LENGTH → '0' ≤ k → k ≤ '9' →
      P7a.handleAwaitingID s (some k) now = s) ∧
    (s.state = P7a.State.AWAITING_ID →
      (s.inputBuffer.length = MIN_STUDENT_ID_LENGTH - 1 →
        (P7a.handleAwaitingID s (some '#') now).state = P7a.State.AWAITING_ID ∧
        (P7a.handleAwaitingID s (some '#') now).inputBuffer = []) ∧
      (s.inputBuffer.length = MIN_STUDENT_ID_LENGTH →
        (P7a.handleAwaitingID s (some '#') now).state = P7a.State.AUTHENTICATING) ∧
      (s.inputBuffer.length = MAX_STUDENT_ID_LENGTH →
        (P7a.handleAwaitingID s (some '#') now).state = P7a.State.AUTHENTICATING)) := by
  have hmm : MIN_STUDENT_ID_LENGTH = 8 := rfl
  have hMM : MAX_STUDENT_ID_LENGTH = 9 := rfl
  refine ⟨?_, ?_, ?_⟩
  · intro key
    cases key with
    | none => exact ⟨hdig, hlen⟩
    | some k2 =>
      simp only [P7a.handleAwaitingID]
      by_cases hd2 : '0' ≤ k2 ∧ k2 ≤ '9'
      · rw [if_pos hd2]
        by_cases hl2 : s.inputBuffer.length < MAX_STUDENT_ID_LENGTH
        · rw [if_pos hl2]
          refine ⟨?_, ?_⟩
          · intro c hc
            rcases List.mem_append.mp hc with h | h
            · exact hdig c h
            · rcases List.mem_singleton.mp h with rfl
              exact hd2
          · show (s.inputBuffer ++ [k2]).length ≤ MAX_STUDENT_ID_LENGTH
            have hh : (s.inputBuffer ++ [k2]).length = s.inputBuffer.length + 1 := by simp
            omega
        · rw [if_neg hl2]
          exact ⟨hdig, hlen⟩
      · rw [if_neg hd2]
        by_cases hh2 : k2 = '#'
        · rw [if_pos hh2]
          by_cases hv : MIN_STUDENT_ID_LENGTH ≤ s.inputBuffer.length ∧
              s.inputBuffer.length ≤ MAX_STUDENT_ID_LENGTH
          · rw [if_pos hv]
            refine ⟨?_, ?_⟩
            · intro c hc
              rw [P7a_changeState_inputBuffer] at hc
              exact hdig c hc
            · rw [P7a_changeState_inputBuffer]
              exact hlen
          · rw [if_neg hv]
            exact ⟨by simp, by simp⟩
        · rw [if_neg hh2]
          by_cases hst2 : k2 = '*'
          · rw [if_pos hst2]
            by_cases hl3 : s.inputBuffer.length > 0
            · rw [if_pos hl3]
              refine ⟨?_, ?_⟩
              · intro c hc
                exact hdig c (mem_of_mem_dropLast hc)
              · show s.inputBuffer.dropLast.length ≤ MAX_STUDENT_ID_LENGTH
                have hh : s.inputBuffer.dropLast.length = s.inputBuffer.length - 1 :=
                  List.length_dropLast _
                omega
            · rw [if_neg hl3]
              exact ⟨hdig, hlen⟩
          · rw [if_neg hst2]
            by_cases hD : k2 = 'D'
            · rw [if_pos hD]
              refine ⟨?_, ?_⟩
              · intro c hc
                rw [P7a_changeState_inputBuffer] at hc
                simp at hc
              · rw [P7a_changeState_inputBuffer]
                simp
            · rw [if_neg hD]
              exact ⟨hdig, hlen⟩
  · intro hmax hk1 hk2
    simp only [P7a.handleAwaitingID]
    rw [if_pos ⟨hk1, hk2⟩, if_neg (by omega)]
  · intro hst
    refine ⟨?_, ?_, ?_⟩
    · intro h7
      simp only [P7a.handleAwaitingID]
      rw [if_pos trivial,
        if_neg (show ¬ (MIN_STUDENT_ID_LENGTH ≤ s.inputBuffer.length ∧
          s.inputBuffer.length ≤ MAX_STUDENT_ID_LENGTH) by omega)]
      exact ⟨hst, rfl⟩
    · intro h8
      simp only [P7a.handleAwaitingID]
      rw [if_pos trivial,
        if_pos (show MIN_STUDENT_ID_LENGTH ≤ s.inputBuffer.length ∧
          s.inputBuffer.length ≤ MAX_STUDENT_ID_LENGTH by omega)]
      exact P7a_changeState_state _ _ _
    · intro h9
      simp only [P7a.handleAwaitingID]
      rw [if_pos trivial,
        if_pos (show MIN_STUDENT_ID_LENGTH ≤ s.inputBuffer.length ∧
          s.inputBuffer.length ≤ MAX_STUDENT_ID_LENGTH by omega)]
      exact P7a_changeState_state _ _ _

/-- Witness for `C5_input_buffer_amended` at the three boundary lengths. -/
theorem C5_witness :
    (P7a.handleAwaitingID
      { P7a.base with state := .AWAITING_ID, inputBuffer := "1234567".data }
      (some '#') 3).state = P7a.State.AWAITING_ID ∧
    (P7a.handleAwaitingID
      { P7a.base with state := .AWAITING_ID, inputBuffer := "12345678".data }
      (some '#') 3).state = P7a.State.AUTHENTICATING ∧
    P7a.handleAwaitingID
      { P7a.base with state := .AWAITING_ID, inputBuffer := "123456789".data }
      (some '5') 3 =
      { P7a.base with state := .AWAITING_ID, inputBuffer := "123456789".data } := by
  refine ⟨?_, ?_, ?_⟩
  · exact (((C5_input_buffer_amended _ '5' 3 (by decide) (by decide)).2.2 rfl).1
      (by decide)).1
  · exact ((C5_input_buffer_amended _ '5' 3 (by decide) (by decide)).2.2 rfl).2.1
      (by decide)
  · exact (C5_input_buffer_amended _ '5' 3 (by decide) (by decide)).2.1
      (by decide) (by decide) (by decide)

/-! ### Claim C7: sensor-fault handling -/

/-- C7 counterexample.  Ten consecutive ticks with both channels
implausible (raw 50) leave the controller in `IDLE_AVAILABLE` — the code
enters `ErrorState` only when the counter *exceeds* 10, i.e. on the
eleventh tick.  And eleven consecutive ticks with only the door channel
implausible (box raw 3000, well above the threshold) do enter
`ERROR_STATE` — so the condition is "either channel", not "both
channels". -/
theorem C7_counterexample :
    (P6.emgIter P6.base 0 50 50 true 10).lockerState = LockerState.IDLE_AVAILABLE ∧
    (P6.emgIter P6.base 0 50 3000 true 11).lockerState = LockerState.ERROR_STATE := by
  refine ⟨by decide, by decide⟩

/-- C7 (amended).  A tick with a raw reading below the plausibility
threshold on *either* channel increments the consecutive-failure counter,
and `ERROR_STATE` is entered exactly when the new count exceeds 10 — on
the eleventh consecutive implausible tick from a reset counter.  A tick
with both channels plausible resets the counter.  `ERROR_STATE` is
preserved by the emergency handler, and within the state machine only the
admin key `D` leaves it, into `MAINTENANCE`. -/
theorem C7_sensor_fault_amended (s : P6.St) (now rawDoor rawBox : Nat) (connected : Bool)
    (key : Option Char) :
    (rawDoor < 100 ∨ rawBox < 100 →
      (P6.handleEmergencyConditions s now rawDoor rawBox connected).1.sensorFailCount =
        s.sensorFailCount + 1 ∧
      (s.sensorFailCount + 1 > 10 →
        (P6.handleEmergencyConditions s now rawDoor rawBox connected).1.lockerState =
          LockerState.ERROR_STATE)) ∧
    (100 ≤ rawDoor → 100 ≤ rawBox →
      (P6.handleEmergencyConditions s now rawDoor rawBox connected).1.sensorFailCount = 0) ∧
    (s.lockerState = LockerState.ERROR_STATE →
      (P6.handleEmergencyConditions s now rawDoor rawBox connected).1.lockerState =
        LockerState.ERROR_STATE) ∧
    P6.handleErrorState s (some 'D') now = P6.transitionToState s .MAINTENANCE now ∧
    (key ≠ some 'D' → P6.handleErrorState s key now = s) := by
  refine ⟨?_, ?_, ?_, ?_, ?_⟩
  · intro hfail
    have hstep : P6.sensorFailStep s now rawDoor rawBox =
        (if s.sensorFailCount + 1 > 10 then
          P6.transitionToState { s with sensorFailCount := s.sensorFailCount + 1 }
            .ERROR_STATE now
        else { s with sensorFailCount := s.sensorFailCount + 1 }) := by
      unfold P6.sensorFailStep
      rw [if_pos hfail]
    refine ⟨?_, ?_⟩
    · unfold P6.handleEmergencyConditions
      rw [hstep, forcedEntryCheck_sensorFailCount]
      split <;> rfl
    · intro hcount
      unfold P6.handleEmergencyConditions
      rw [hstep, if_pos hcount]
      exact forcedEntryCheck_error _ now rawDoor rawBox connected rfl
  · intro hd hb
    have hstep : P6.sensorFailStep s now rawDoor rawBox = { s with sensorFailCount := 0 } := by
      unfold P6.sensorFailStep
      rw [if_neg (by omega)]
    unfold P6.handleEmergencyConditions
    rw [hstep, forcedEntryCheck_sensorFailCount]
  · intro herr
    unfold P6.handleEmergencyConditions P6.sensorFailStep
    split
    · split
      · exact forcedEntryCheck_error _ now rawDoor rawBox connected rfl
      · exact forcedEntryCheck_error _ now rawDoor rawBox connected herr
    · exact forcedEntryCheck_error _ now rawDoor rawBox connected herr
  · unfold P6.handleErrorState
    rw [if_pos rfl]
  · intro hk
    unfold P6.handleErrorState
    rw [if_neg hk]

/-- Witness for `C7_sensor_fault_amended`: the eleventh implausible tick
(door channel only) enters `ERROR_STATE`, and the admin key leaves it. -/
theorem C7_witness :
    (P6.handleEmergencyConditions { P6.base with sensorFailCount := 10 }
      0 50 3000 true).1.lockerState = LockerState.ERROR_STATE ∧
    P6.handleErrorState { P6.base with lockerState := .ERROR_STATE } (some 'D') 4 =
      P6.transitionToState { P6.base with lockerState := .ERROR_STATE } .MAINTENANCE 4 := by
  refine ⟨?_, ?_⟩
  · exact ((C7_sensor_fault_amended { P6.base with sensorFailCount := 10 }
      0 50 3000 true (some 'A')).1 (by omega)).2 (by decide)
  · exact (C7_sensor_fault_amended { P6.base with lockerState := .ERROR_STATE }
      4 500 500 true (some 'A')).2.2.2.1

end SmartLocker
